import Mathlib

/-!
Verification of the admission/queueing/execution/notification core of the
no-code-architects-toolkit repository, shallowly embedded from `src/app.py`,
and of the option validation of `src/routes/v1/media/download/yt_dlp.py`.

Timestamps are modelled as exact rationals; each `time.time()` sample in the
source becomes an explicit parameter, constrained only where a claim needs
clock monotonicity.
-/

/-- A JSON-like value as carried in a request payload or a work result. -/
inductive JVal where
  | jnull : JVal
  | jbool : Bool → JVal
  | jnum : Int → JVal
  | jstr : String → JVal
deriving DecidableEq, Repr

/-- A request payload: the caller's JSON body, modelled as an association
list with distinct keys (Python dict). -/
abbrev Payload := List (String × JVal)

/-- `data.get(k)` on a Python dict: first binding of `k`, if any. -/
def pget (data : Payload) (k : String) : Option JVal :=
  match data with
  | [] => none
  | (k2, v) :: rest => if k2 = k then some v else pget rest k

/-- `k in data` on a Python dict. -/
def hasKey (data : Payload) (k : String) : Bool :=
  (pget data k).isSome

/-- Python `round(x, 3)` on the exact rational model of a timestamp
difference: rounding to 3 decimal places (ties idealized upward; the claims
proved here do not depend on tie-breaking). -/
def round3 (x : ℚ) : ℚ :=
  ((⌊x * 1000 + 1/2⌋ : ℤ) : ℚ) / 1000

/-- The 3-tuple `(result_body, label, status_code)` returned by a wrapped
operation `f` (spec §6: `(result_body, label, status_code)`). -/
abbrev WorkTriple := JVal × String × Int

/-- A Job Unit as placed on `task_queue` at `app.py` line 154:
`(job_id, data, task_func, queue_start_time)`; the closure `task_func` is
modelled separately as a `TaskOutcome` when the worker loop runs the job. -/
structure JobUnit where
  jobId : String
  payload : Payload
  admittedAt : ℚ
deriving DecidableEq, Repr

/-- Body of the synchronous / bypass response (`app.py` lines 125-138). -/
structure SyncBody where
  code : Int
  id : Option JVal
  jobId : String
  response : Option JVal
  message : JVal
  runTime : ℚ
  queueTime : ℚ
  totalTime : ℚ
  pid : Int
  queueId : Int
  queueLength : Nat
  buildNumber : String
deriving DecidableEq, Repr

/-- Body of the 429 overflow response (`app.py` lines 142-151). -/
structure RejectBody where
  code : Int
  id : Option JVal
  jobId : String
  message : String
  pid : Int
  queueId : Int
  queueLength : Nat
  buildNumber : String
deriving DecidableEq, Repr

/-- Body of the 202 queued response (`app.py` lines 156-166). -/
structure QueuedBody where
  code : Int
  id : Option JVal
  jobId : String
  message : String
  pid : Int
  queueId : Int
  maxQueueLength : Int
  queueLength : Nat
  buildNumber : String
deriving DecidableEq, Repr

/-- The `(body, status)` pair returned by the admission wrapper, one
constructor per return site of `wrapper` in `queue_task`. -/
inductive GateResponse where
  | sync : SyncBody → Int → GateResponse
  | reject : RejectBody → Int → GateResponse
  | accepted : QueuedBody → Int → GateResponse
deriving DecidableEq, Repr

/-- The admission wrapper of `queue_task` (`app.py` lines 113-166), one
request.  `reqJson` is `request.json` when `request.is_json` holds, else
`none` (the source then uses `\x7b\x7d`).  `f` is the wrapped operation's
result triple and `fElapsed` the elapsed time measured around its inline
execution; both are consulted only on the bypass path, where the source
calls `f`.  Returns the response together with the queue contents after the
request. -/
def queue_task (bypassQueue : Bool) (MAX_QUEUE_LENGTH : Int)
    (task_queue : List JobUnit) (job_id : String) (reqJson : Option Payload)
    (pid : Int) (queue_id : Int) (start_time : ℚ)
    (f : WorkTriple) (fElapsed : ℚ) (buildNumber : String) :
    GateResponse × List JobUnit :=
  let data : Payload := reqJson.getD []
  if bypassQueue || !hasKey data "webhook_url" then
    let run_time := fElapsed
    (GateResponse.sync
      { code := f.2.2
        id := pget data "id"
        jobId := job_id
        response := if f.2.2 = 200 then some f.1 else none
        message := if f.2.2 = 200 then JVal.jstr "success" else f.1
        runTime := round3 run_time
        queueTime := 0
        totalTime := round3 run_time
        pid := pid
        queueId := queue_id
        queueLength := task_queue.length
        buildNumber := buildNumber } f.2.2, task_queue)
  else if 0 < MAX_QUEUE_LENGTH ∧ MAX_QUEUE_LENGTH ≤ (task_queue.length : Int) then
    (GateResponse.reject
      { code := 429
        id := pget data "id"
        jobId := job_id
        message := "MAX_QUEUE_LENGTH (" ++ toString MAX_QUEUE_LENGTH ++ ") reached"
        pid := pid
        queueId := queue_id
        queueLength := task_queue.length
        buildNumber := buildNumber } 429, task_queue)
  else
    let task_queue2 := task_queue ++ [⟨job_id, data, start_time⟩]
    (GateResponse.accepted
      { code := 202
        id := pget data "id"
        jobId := job_id
        message := "processing"
        pid := pid
        queueId := queue_id
        maxQueueLength := MAX_QUEUE_LENGTH
        queueLength := task_queue2.length
        buildNumber := buildNumber } 202, task_queue2)

/-- What `task_func()` did when the worker loop ran it: returned a triple,
or raised an exception carrying message `msg`. -/
inductive TaskOutcome where
  | ok : WorkTriple → TaskOutcome
  | raises : String → TaskOutcome
deriving DecidableEq, Repr

/-- The `response` triple after the inner try/except of `process_queue`
(`app.py` lines 61-65): an exception `e` becomes `(str(e), 'error', 500)`. -/
def taskResponse : TaskOutcome → WorkTriple
  | TaskOutcome.ok t => t
  | TaskOutcome.raises msg => (JVal.jstr msg, "error", 500)

/-- The `response_data` dict built by `process_queue`
(`app.py` lines 70-84): the Result Envelope. -/
structure ResultEnvelope where
  endpoint : String
  code : Int
  id : Option JVal
  jobId : String
  response : Option JVal
  message : JVal
  pid : Int
  queueId : Int
  runTime : ℚ
  queueTime : ℚ
  totalTime : ℚ
  queueLength : Nat
  buildNumber : String
deriving DecidableEq, Repr

/-- One iteration of the worker loop `process_queue` (`app.py` lines 54-84)
on a dequeued job.  The four `time.time()` samples of the iteration are
explicit: `s1` at the `queue_time` computation (line 56), `s2` at
`run_start_time` (line 57), `s3` at `run_time` (line 67), `s4` at
`total_time` (line 68).  `qlenAfter` is `task_queue.qsize()` at envelope
construction. -/
def process_job (job : JobUnit) (outcome : TaskOutcome)
    (s1 s2 s3 s4 : ℚ) (pid : Int) (queueId : Int) (qlenAfter : Nat)
    (buildNumber : String) : ResultEnvelope :=
  let queue_time := s1 - job.admittedAt
  let run_start_time := s2
  let response := taskResponse outcome
  let run_time := s3 - run_start_time
  let total_time := s4 - job.admittedAt
  { endpoint := response.2.1
    code := response.2.2
    id := pget job.payload "id"
    jobId := job.jobId
    response := if response.2.2 = 200 then some response.1 else none
    message := if response.2.2 = 200 then JVal.jstr "success" else response.1
    pid := pid
    queueId := queueId
    runTime := round3 run_time
    queueTime := round3 queue_time
    totalTime := round3 total_time
    queueLength := qlenAfter
    buildNumber := buildNumber }

/-- One dequeued job together with the ambient data of the worker-loop
iteration that consumes it. -/
structure ScheduledJob where
  job : JobUnit
  outcome : TaskOutcome
  s1 : ℚ
  s2 : ℚ
  s3 : ℚ
  s4 : ℚ
  qlenAfter : Nat
deriving DecidableEq, Repr

/-- The worker loop over a whole arrival sequence: every dequeued job is
processed and yields an envelope; per-job failures are absorbed by
`taskResponse`, so the loop never stops early (`app.py` lines 52-107: the
`while True` with per-job try/except). -/
def process_queue_run (pid : Int) (queueId : Int) (buildNumber : String) :
    List ScheduledJob → List ResultEnvelope
  | [] => []
  | sj :: rest =>
      process_job sj.job sj.outcome sj.s1 sj.s2 sj.s3 sj.s4 pid queueId
        sj.qlenAfter buildNumber :: process_queue_run pid queueId buildNumber rest

/-- Trace of one `send_webhook_with_retry` call: how many delivery attempts
were made, which sleeps `time.sleep(2 ** attempt)` were performed in order,
which 1-based attempt numbers were logged as failures, and whether delivery
eventually succeeded. -/
structure RetryTrace where
  attempts : Nat
  sleeps : List Nat
  failureLogs : List Nat
  delivered : Bool
deriving DecidableEq, Repr

/-- The `for attempt in range(max_retries)` loop of
`send_webhook_with_retry` (`app.py` lines 88-94), unrolled from attempt
index `attempt` with `fuel` iterations remaining.  `outcomes i = true`
means the `send_webhook` call of attempt index `i` succeeds; on success the
function returns at once, on failure it logs attempt `i+1` and sleeps
`2 ^ i`. -/
def retryLoop (outcomes : Nat → Bool) : Nat → Nat → RetryTrace
  | 0, _ => { attempts := 0, sleeps := [], failureLogs := [], delivered := false }
  | fuel + 1, attempt =>
      if outcomes attempt then
        { attempts := 1, sleeps := [], failureLogs := [], delivered := true }
      else
        let rest := retryLoop outcomes fuel (attempt + 1)
        { attempts := rest.attempts + 1
          sleeps := 2 ^ attempt :: rest.sleeps
          failureLogs := (attempt + 1) :: rest.failureLogs
          delivered := rest.delivered }

/-- `send_webhook_with_retry(url, payload, max_retries)` (`app.py` lines
87-94), abstracted over the success/failure outcome of each attempt.  It
returns a trace rather than raising: every exception of `send_webhook` is
caught inside the loop. -/
def send_webhook_with_retry (outcomes : Nat → Bool) (max_retries : Nat) :
    RetryTrace :=
  retryLoop outcomes max_retries 0

/-- The environment variables consulted (or not) at startup.
`WEBHOOK_MAX_RETRIES` is listed because the spec names it; `app.py` reads
only `MAX_QUEUE_LENGTH` and `MAX_WORKERS` (lines 22 and 29). -/
structure Env where
  MAX_QUEUE_LENGTH : Option String
  MAX_WORKERS : Option String
  WEBHOOK_MAX_RETRIES : Option String
deriving DecidableEq, Repr

/-- The webhook dispatch performed by the worker loop (`app.py` line 98):
`thread_pool.submit(send_webhook_with_retry, data["webhook_url"],
response_data)` passes no `max_retries` argument, so the Python default
`max_retries=3` applies whatever the environment holds. -/
def worker_webhook_dispatch (_env : Env) (outcomes : Nat → Bool) : RetryTrace :=
  send_webhook_with_retry outcomes 3

/-- Numeric value of a list of ASCII digit characters. -/
def digitsVal (cs : List Char) : Nat :=
  cs.foldl (fun a c => 10 * a + (c.toNat - 48)) 0

/-- Strip leading and trailing whitespace from a character list. -/
def stripChars (cs : List Char) : List Char :=
  ((cs.dropWhile Char.isWhitespace).reverse.dropWhile Char.isWhitespace).reverse

/-- Python `int(s)` on a string: surrounding whitespace stripped, an
optional single sign, then one or more digits; anything else raises
`ValueError`, modelled as `none`.  (Underscore digit grouping and non-ASCII
digits are outside this model.) -/
def pyIntParse (s : String) : Option Int :=
  let cs := stripChars s.toList
  match cs with
  | [] => none
  | '+' :: rest =>
      if rest ≠ [] ∧ rest.all Char.isDigit then some (digitsVal rest) else none
  | '-' :: rest =>
      if rest ≠ [] ∧ rest.all Char.isDigit then some (-(digitsVal rest : Int))
      else none
  | _ =>
      if cs.all Char.isDigit then some (digitsVal cs) else none

/-- `parse_queue_length` (`app.py` lines 20-26):
`int(os.environ.get('MAX_QUEUE_LENGTH', 50))` clamped by `max(0, length)`;
a `ValueError` logs a warning and returns 50. -/
def parse_queue_length (envVal : Option String) : Int :=
  match envVal with
  | none => max 0 50
  | some s =>
      match pyIntParse s with
      | some length => max 0 length
      | none => 50

/-- Whether `parse_queue_length` logs its warning: only the `ValueError`
branch (`app.py` line 25) does; a parsed negative value is clamped silently
by `max(0, length)` on line 23. -/
def parse_queue_length_warns (envVal : Option String) : Bool :=
  match envVal with
  | none => false
  | some s => (pyIntParse s).isNone

/-- `ALLOWED_OPTIONS` of `src/routes/v1/media/download/yt_dlp.py`
(lines 23-62). -/
def ALLOWED_OPTIONS : List String :=
  [ "format", "format_sort", "format_sort_force", "video_multistreams",
    "audio_multistreams", "prefer_free_formats", "check_formats",
    "check_all_formats", "prefer_insecure",
    "playlist_items", "min_filesize", "max_filesize", "date", "datebefore",
    "dateafter", "match_filter", "no_playlist", "yes_playlist", "age_limit",
    "download_archive", "break_on_existing", "break_on_reject",
    "skip_playlist_after_errors",
    "limit_rate", "retries", "fragment_retries", "skip_unavailable_fragments",
    "keep_fragments", "buffer_size", "resize_buffer", "http_chunk_size",
    "playlist_reverse", "playlist_random", "xattr_set_filesize",
    "hls_use_mpegts", "download_sections",
    "username", "password", "videopassword", "ap_mso", "ap_username",
    "ap_password", "client_certificate", "client_certificate_key",
    "client_certificate_password",
    "extract_audio", "audio_format", "audio_quality", "remux_video",
    "recode_video", "postprocessor_args", "keep_video", "no_keep_video",
    "post_overwrites", "embed_subs", "embed_thumbnail", "embed_metadata",
    "embed_chapters", "embed_info_json", "parse_metadata",
    "write_description", "write_info_json", "write_thumbnail",
    "write_all_thumbnails",
    "sponsorblock_mark", "sponsorblock_remove", "sponsorblock_chapter_title",
    "sponsorblock_api",
    "output_na_placeholder", "restrict_filenames", "no_overwrites",
    "continue", "part", "mtime", "write_comments" ]

/-- `validate_options` (`yt_dlp.py` lines 63-67): the invalid keys
`set(opts.keys()) - ALLOWED_OPTIONS`; `some invalid` models the raised
`ValueError` naming them, and `none` models passing validation. -/
def validate_options (optKeys : List String) : Option (List String) :=
  let invalid := optKeys.filter (fun k => !ALLOWED_OPTIONS.contains k)
  if invalid = [] then none else some invalid

/-- The responses `download_video` can return before any download work
starts (`yt_dlp.py` lines 121-168), in source order: storage-provider
failure (500), missing `url` (400), invalid options naming the offending
keys (400), advisory timeout (408), or proceed to the download itself. -/
inductive DlResponse where
  | storageError : String → DlResponse
  | urlMissing : DlResponse
  | invalidOptions : List String → DlResponse
  | requestTimeout : DlResponse
  | proceed : DlResponse
deriving DecidableEq, Repr

/-- HTTP status of each early response of `download_video`. -/
def dlStatus : DlResponse → Option Int
  | DlResponse.storageError _ => some 500
  | DlResponse.urlMissing => some 400
  | DlResponse.invalidOptions _ => some 400
  | DlResponse.requestTimeout => some 408
  | DlResponse.proceed => none

/-- The validation prefix of `download_video` (`yt_dlp.py` lines 121-168):
storage init, `url` presence, `validate_options`, then the advisory
request-timeout check. -/
def download_video_validate (storageInit : Option String) (hasUrl : Bool)
    (optKeys : List String) (elapsedExceeded : Bool) : DlResponse :=
  match storageInit with
  | some e => DlResponse.storageError e
  | none =>
      if !hasUrl then DlResponse.urlMissing
      else
        match validate_options optKeys with
        | some ks => DlResponse.invalidOptions ks
        | none =>
            if elapsedExceeded then DlResponse.requestTimeout
            else DlResponse.proceed

/-! Helper lemmas about `round3`. -/

theorem round3_nonneg (x : ℚ) (hx : 0 ≤ x) : 0 ≤ round3 x := by
  unfold round3
  apply div_nonneg _ (by norm_num)
  have h : (0 : ℤ) ≤ ⌊x * 1000 + 1/2⌋ := by
    apply Int.floor_nonneg.mpr
    nlinarith
  exact_mod_cast h

theorem round3_mono (x y : ℚ) (h : x ≤ y) : round3 x ≤ round3 y := by
  unfold round3
  apply div_le_div_of_nonneg_right _ (by norm_num)
  have hf : ⌊x * 1000 + 1/2⌋ ≤ ⌊y * 1000 + 1/2⌋ :=
    Int.floor_mono (by nlinarith)
  exact_mod_cast hf

/-! Claim theorems. -/

/-- C1: a non-bypassed request whose payload has a callback URL, arriving
when the configured capacity `C` is positive and the queue depth is at
least `C`, is answered with the 429 overflow body whose message names `C`,
and the queue is returned unchanged: no Job Unit is created or pushed. -/
theorem overflow_rejects_without_enqueue
    (C : Int) (q : List JobUnit) (data : Payload) (jid : String)
    (pid qid : Int) (st : ℚ) (f : WorkTriple) (el : ℚ) (bn : String)
    (hC : 0 < C) (hq : C ≤ (q.length : Int))
    (hw : hasKey data "webhook_url" = true) :
    queue_task false C q jid (some data) pid qid st f el bn
      = (GateResponse.reject
          { code := 429, id := pget data "id", jobId := jid,
            message := "MAX_QUEUE_LENGTH (" ++ toString C ++ ") reached",
            pid := pid, queueId := qid, queueLength := q.length,
            buildNumber := bn } 429, q) := by
  simp [queue_task, hw, hC, hq]

/-- Witness for C1: a concrete one-slot queue at depth 1 rejects the next
webhook-carrying request with the 429 body and leaves the queue unchanged. -/
theorem overflow_rejects_without_enqueue_witness :
    queue_task false 1 [⟨"j0", [], 0⟩] "j1"
      (some [("webhook_url", JVal.jstr "http://x/cb")]) 7 9 5
      (JVal.jstr "ok", "test", 200) 2 "b1"
      = (GateResponse.reject
          { code := 429, id := none, jobId := "j1",
            message := "MAX_QUEUE_LENGTH (1) reached",
            pid := 7, queueId := 9, queueLength := 1,
            buildNumber := "b1" } 429, [⟨"j0", [], 0⟩]) :=
  overflow_rejects_without_enqueue 1 [⟨"j0", [], 0⟩]
    [("webhook_url", JVal.jstr "http://x/cb")] "j1" 7 9 5
    (JVal.jstr "ok", "test", 200) 2 "b1" (by norm_num) (by norm_num) (by decide)

/-- C2: a bypass-eligible request, or one whose payload lacks the
`webhook_url` key, is executed inline: the wrapped operation's triple `f`
shapes the synchronous body, the queue is returned unchanged (nothing is
enqueued), `queue_time` is 0 and `total_time` equals `run_time` (both are
`round3 fElapsed`). -/
theorem bypass_runs_inline_with_zero_queue_time
    (b : Bool) (C : Int) (q : List JobUnit) (data : Payload) (jid : String)
    (pid qid : Int) (st : ℚ) (f : WorkTriple) (el : ℚ) (bn : String)
    (hbp : b = true ∨ hasKey data "webhook_url" = false) :
    queue_task b C q jid (some data) pid qid st f el bn
      = (GateResponse.sync
          { code := f.2.2, id := pget data "id", jobId := jid,
            response := if f.2.2 = 200 then some f.1 else none,
            message := if f.2.2 = 200 then JVal.jstr "success" else f.1,
            runTime := round3 el, queueTime := 0, totalTime := round3 el,
            pid := pid, queueId := qid, queueLength := q.length,
            buildNumber := bn } f.2.2, q) := by
  rcases hbp with hb | hw
  · simp [queue_task, hb]
  · simp [queue_task, hw]

/-- Witness for C2: a concrete payload without `webhook_url` is answered
synchronously with `queue_time = 0` and `total_time = run_time`. -/
theorem bypass_runs_inline_with_zero_queue_time_witness :
    queue_task false 50 [] "j1" (some [("id", JVal.jstr "abc")]) 7 9 5
      (JVal.jstr "ok", "test", 200) 2 "b1"
      = (GateResponse.sync
          { code := 200, id := some (JVal.jstr "abc"), jobId := "j1",
            response := some (JVal.jstr "ok"),
            message := JVal.jstr "success",
            runTime := round3 2, queueTime := 0, totalTime := round3 2,
            pid := 7, queueId := 9, queueLength := 0,
            buildNumber := "b1" } 200, []) := by
  have h := bypass_runs_inline_with_zero_queue_time false 50 []
    [("id", JVal.jstr "abc")] "j1" 7 9 5 (JVal.jstr "ok", "test", 200) 2 "b1"
    (Or.inr (by decide))
  simpa using h

/-- C6: when the configured capacity is 0 the overflow branch can never be
taken: no request is answered with the 429 overflow body, whatever the
queue depth. -/
theorem capacity_zero_never_rejects
    (b : Bool) (q : List JobUnit) (rj : Option Payload) (jid : String)
    (pid qid : Int) (st : ℚ) (f : WorkTriple) (el : ℚ) (bn : String) :
    ∀ (body : RejectBody) (s : Int),
      (queue_task b 0 q jid rj pid qid st f el bn).1
        ≠ GateResponse.reject body s := by
  intro body s
  unfold queue_task
  by_cases hb : (b || !hasKey (rj.getD []) "webhook_url") = true
  · simp [hb]
  · simp [hb]

/-- C9: a request whose body is not JSON is handled with the empty payload:
it always takes the synchronous bypass path (never enqueued, never answered
429 even when the queue is full), and the response's `id` field is `none`. -/
theorem non_json_body_bypasses_with_null_id
    (b : Bool) (C : Int) (q : List JobUnit) (jid : String)
    (pid qid : Int) (st : ℚ) (f : WorkTriple) (el : ℚ) (bn : String) :
    queue_task b C q jid none pid qid st f el bn
      = (GateResponse.sync
          { code := f.2.2, id := none, jobId := jid,
            response := if f.2.2 = 200 then some f.1 else none,
            message := if f.2.2 = 200 then JVal.jstr "success" else f.1,
            runTime := round3 el, queueTime := 0, totalTime := round3 el,
            pid := pid, queueId := qid, queueLength := q.length,
            buildNumber := bn } f.2.2, q) := by
  simp [queue_task, hasKey, pget]

/-- C3: when `work()` raises with message `m`, the worker loop's envelope
has `code = 500`, `response = none` and `message` equal to the raised text,
and the loop goes on to process every remaining job: the run over
`sj :: rest` is the failing job's envelope followed by the run over
`rest`. -/
theorem worker_contains_work_exception
    (job : JobUnit) (m : String) (s1 s2 s3 s4 : ℚ) (pid qid : Int)
    (qlen : Nat) (bn : String) :
    (process_job job (TaskOutcome.raises m) s1 s2 s3 s4 pid qid qlen bn).code
        = 500
    ∧ (process_job job (TaskOutcome.raises m) s1 s2 s3 s4 pid qid qlen
        bn).response = none
    ∧ (process_job job (TaskOutcome.raises m) s1 s2 s3 s4 pid qid qlen
        bn).message = JVal.jstr m
    ∧ ∀ rest : List ScheduledJob,
        process_queue_run pid qid bn
            (⟨job, TaskOutcome.raises m, s1, s2, s3, s4, qlen⟩ :: rest)
          = process_job job (TaskOutcome.raises m) s1 s2 s3 s4 pid qid qlen bn
              :: process_queue_run pid qid bn rest := by
  refine ⟨?_, ?_, ?_, fun rest => ?_⟩ <;>
    simp [process_job, taskResponse, process_queue_run]

/-- C7: under monotone sampling of the wall clock (admission time, then the
four in-iteration samples in program order), every envelope's `run_time`,
`queue_time` and `total_time` are non-negative and
`total_time ≥ run_time`. -/
theorem envelope_durations_nonneg_and_ordered
    (job : JobUnit) (outcome : TaskOutcome) (s1 s2 s3 s4 : ℚ)
    (pid qid : Int) (qlen : Nat) (bn : String)
    (h01 : job.admittedAt ≤ s1) (h12 : s1 ≤ s2) (h23 : s2 ≤ s3)
    (h34 : s3 ≤ s4) :
    0 ≤ (process_job job outcome s1 s2 s3 s4 pid qid qlen bn).runTime
    ∧ 0 ≤ (process_job job outcome s1 s2 s3 s4 pid qid qlen bn).queueTime
    ∧ 0 ≤ (process_job job outcome s1 s2 s3 s4 pid qid qlen bn).totalTime
    ∧ (process_job job outcome s1 s2 s3 s4 pid qid qlen bn).runTime
        ≤ (process_job job outcome s1 s2 s3 s4 pid qid qlen bn).totalTime := by
  refine ⟨?_, ?_, ?_, ?_⟩ <;> simp only [process_job]
  · exact round3_nonneg _ (by linarith)
  · exact round3_nonneg _ (by linarith)
  · exact round3_nonneg _ (by linarith)
  · exact round3_mono _ _ (by linarith)

/-- Witness for C7: concrete sample times 0 ≤ 1 ≤ 2 ≤ 3 ≤ 5. -/
theorem envelope_durations_nonneg_and_ordered_witness :
    0 ≤ (process_job ⟨"j", [], 0⟩ (TaskOutcome.ok (JVal.jnull, "t", 200))
          1 2 3 5 1 2 0 "b").runTime
    ∧ 0 ≤ (process_job ⟨"j", [], 0⟩ (TaskOutcome.ok (JVal.jnull, "t", 200))
          1 2 3 5 1 2 0 "b").queueTime
    ∧ 0 ≤ (process_job ⟨"j", [], 0⟩ (TaskOutcome.ok (JVal.jnull, "t", 200))
          1 2 3 5 1 2 0 "b").totalTime
    ∧ (process_job ⟨"j", [], 0⟩ (TaskOutcome.ok (JVal.jnull, "t", 200))
          1 2 3 5 1 2 0 "b").runTime
        ≤ (process_job ⟨"j", [], 0⟩ (TaskOutcome.ok (JVal.jnull, "t", 200))
          1 2 3 5 1 2 0 "b").totalTime :=
  envelope_durations_nonneg_and_ordered ⟨"j", [], 0⟩
    (TaskOutcome.ok (JVal.jnull, "t", 200)) 1 2 3 5 1 2 0 "b"
    (by norm_num) (by norm_num) (by norm_num) (by norm_num)

/-- C4: a delivery that fails on attempts 0 and 1 and succeeds on attempt 2
makes exactly 3 attempts, sleeps `2^0 = 1` after the first failure and
`2^1 = 2` after the second, and stops after the success. -/
theorem webhook_two_failures_then_success
    (env : Env) (outcomes : Nat → Bool)
    (h0 : outcomes 0 = false) (h1 : outcomes 1 = false)
    (h2 : outcomes 2 = true) :
    worker_webhook_dispatch env outcomes
      = { attempts := 3, sleeps := [1, 2], failureLogs := [1, 2],
          delivered := true } := by
  simp [worker_webhook_dispatch, send_webhook_with_retry, retryLoop,
    h0, h1, h2]

/-- Witness for C4: concrete outcomes failing below attempt index 2. -/
theorem webhook_two_failures_then_success_witness :
    worker_webhook_dispatch ⟨none, none, none⟩ (fun n => decide (2 ≤ n))
      = { attempts := 3, sleeps := [1, 2], failureLogs := [1, 2],
          delivered := true } :=
  webhook_two_failures_then_success ⟨none, none, none⟩
    (fun n => decide (2 ≤ n)) (by decide) (by decide) (by decide)

/-- C5, counterexample: the attempt count is not configurable through a
`WEBHOOK_MAX_RETRIES` environment setting.  With the environment holding
`WEBHOOK_MAX_RETRIES = "5"` and every delivery failing, the dispatcher
still makes 3 attempts, not 5: the call site passes no `max_retries`
argument and no such variable is ever read. -/
theorem webhook_retries_ignore_env_counterexample :
    (worker_webhook_dispatch ⟨none, none, some "5"⟩ (fun _ => false)).attempts
        = 3
    ∧ (3 : Nat) ≠ 5 := by
  decide

/-- C5, amended: whatever the environment (including any
`WEBHOOK_MAX_RETRIES` value), a delivery failing on every attempt makes
exactly 3 attempts — the hard-coded default of the `max_retries` parameter —
logs each failed attempt including the final one, sleeps 1, 2, 4 after the
failures, and returns a trace rather than raising to the Worker Loop. -/
theorem webhook_all_failures_make_three_attempts
    (env : Env) (outcomes : Nat → Bool)
    (hf : ∀ i, i < 3 → outcomes i = false) :
    worker_webhook_dispatch env outcomes
      = { attempts := 3, sleeps := [1, 2, 4], failureLogs := [1, 2, 3],
          delivered := false } := by
  have h0 := hf 0 (by norm_num)
  have h1 := hf 1 (by norm_num)
  have h2 := hf 2 (by norm_num)
  simp [worker_webhook_dispatch, send_webhook_with_retry, retryLoop,
    h0, h1, h2]

/-- Witness for C5 (amended): all deliveries failing, with
`WEBHOOK_MAX_RETRIES = "5"` present in the environment. -/
theorem webhook_all_failures_make_three_attempts_witness :
    worker_webhook_dispatch ⟨none, none, some "5"⟩ (fun _ => false)
      = { attempts := 3, sleeps := [1, 2, 4], failureLogs := [1, 2, 3],
          delivered := false } :=
  webhook_all_failures_make_three_attempts ⟨none, none, some "5"⟩
    (fun _ => false) (fun _ _ => rfl)

/-- C8, counterexample: the environment value `"-5"` is a value that is not
a non-negative integer, yet the configuration becomes 0 (clamped by
`max(0, length)`), not the default 50, and no warning is logged. -/
theorem negative_queue_length_clamped_counterexample :
    parse_queue_length (some "-5") = 0
    ∧ parse_queue_length_warns (some "-5") = false
    ∧ (0 : Int) ≠ 50 := by
  decide

/-- C8, amended: startup never fails on an invalid `MAX_QUEUE_LENGTH`; a
value that does not parse as an integer falls back to the default 50 with a
logged warning, while a value parsing to a negative integer is clamped
silently to 0 rather than defaulting to 50. -/
theorem queue_length_invalid_value_fallback
    (s : String) (n : Int) :
    (pyIntParse s = none →
      parse_queue_length (some s) = 50
      ∧ parse_queue_length_warns (some s) = true)
    ∧ (pyIntParse s = some n → n < 0 →
      parse_queue_length (some s) = 0
      ∧ parse_queue_length_warns (some s) = false) := by
  constructor
  · intro h
    simp [parse_queue_length, parse_queue_length_warns, h]
  · intro h hn
    refine ⟨?_, ?_⟩
    · simp [parse_queue_length, h, max_eq_left hn.le]
    · simp [parse_queue_length_warns, h]

/-- Witness for C8 (amended): the non-numeric string `"abc"` falls back to
50 with a warning; `"-5"` is clamped to 0 without one. -/
theorem queue_length_invalid_value_fallback_witness :
    (parse_queue_length (some "abc") = 50
      ∧ parse_queue_length_warns (some "abc") = true)
    ∧ (parse_queue_length (some "-5") = 0
      ∧ parse_queue_length_warns (some "-5") = false) :=
  ⟨(queue_length_invalid_value_fallback "abc" 0).1 (by decide),
   (queue_length_invalid_value_fallback "-5" (-5)).2 (by decide) (by norm_num)⟩

/-- C10: past storage initialization and the `url` check, the yt-dlp
download request is answered with the 400 invalid-options error naming the
offending keys exactly when some supplied option key lies outside
`ALLOWED_OPTIONS`; `"quiet"` and `"no_warnings"` are outside it, so
supplying either always causes that rejection (with the key named). -/
theorem ytdlp_options_rejected_iff_disallowed_key
    (optKeys : List String) (ex : Bool) :
    ((∃ ks, download_video_validate none true optKeys ex
        = DlResponse.invalidOptions ks)
      ↔ ∃ k ∈ optKeys, k ∉ ALLOWED_OPTIONS)
    ∧ ((∃ k ∈ optKeys, k ∉ ALLOWED_OPTIONS) →
        download_video_validate none true optKeys ex
          = DlResponse.invalidOptions
              (optKeys.filter (fun k => !ALLOWED_OPTIONS.contains k)))
    ∧ (∀ ks, dlStatus (DlResponse.invalidOptions ks) = some 400)
    ∧ "quiet" ∉ ALLOWED_OPTIONS
    ∧ "no_warnings" ∉ ALLOWED_OPTIONS
    ∧ ("quiet" ∈ optKeys →
        ∃ ks, download_video_validate none true optKeys ex
          = DlResponse.invalidOptions ks ∧ "quiet" ∈ ks)
    ∧ ("no_warnings" ∈ optKeys →
        ∃ ks, download_video_validate none true optKeys ex
          = DlResponse.invalidOptions ks ∧ "no_warnings" ∈ ks) := by
  have hmem : ∀ k : String,
      (optKeys.filter (fun k => !ALLOWED_OPTIONS.contains k) = []) →
      k ∈ optKeys → k ∈ ALLOWED_OPTIONS := by
    intro k hnil hk
    have := List.filter_eq_nil_iff.mp hnil k hk
    simpa using this
  by_cases hbad : optKeys.filter (fun k => !ALLOWED_OPTIONS.contains k) = []
  · have hres : download_video_validate none true optKeys ex
        = (if ex then DlResponse.requestTimeout else DlResponse.proceed) := by
      simp only [download_video_validate, validate_options]
      rw [if_pos hbad]
      simp
    refine ⟨?_, ?_, fun ks => rfl, by decide, by decide, ?_, ?_⟩
    · constructor
      · rintro ⟨ks, hks⟩
        rw [hres] at hks
        by_cases hex : ex <;> simp [hex] at hks
      · rintro ⟨k, hk, hkn⟩
        exact absurd (hmem k hbad hk) hkn
    · rintro ⟨k, hk, hkn⟩
      exact absurd (hmem k hbad hk) hkn
    · intro hq
      exact absurd (hmem _ hbad hq) (by decide)
    · intro hq
      exact absurd (hmem _ hbad hq) (by decide)
  · have hres : download_video_validate none true optKeys ex
        = DlResponse.invalidOptions
            (optKeys.filter (fun k => !ALLOWED_OPTIONS.contains k)) := by
      simp only [download_video_validate, validate_options]
      rw [if_neg hbad]
      simp
    refine ⟨?_, fun _ => hres, fun ks => rfl, by decide, by decide, ?_, ?_⟩
    · constructor
      · intro _
        obtain ⟨k, hk⟩ := List.exists_mem_of_ne_nil _ hbad
        have := List.mem_filter.mp hk
        refine ⟨k, this.1, ?_⟩
        simpa using this.2
      · intro _
        exact ⟨_, hres⟩
    · intro hq
      refine ⟨_, hres, List.mem_filter.mpr ⟨hq, by decide⟩⟩
    · intro hq
      refine ⟨_, hres, List.mem_filter.mpr ⟨hq, by decide⟩⟩

/-- Witness for C10: supplying the single option key `"quiet"` is rejected
with the invalid-options error naming it. -/
theorem ytdlp_options_rejected_iff_disallowed_key_witness :
    ∃ ks, download_video_validate none true ["quiet"] false
        = DlResponse.invalidOptions ks ∧ "quiet" ∈ ks :=
  (ytdlp_options_rejected_iff_disallowed_key ["quiet"] false).2.2.2.2.2.1
    (by decide)
